import Mathlib

/-!
Verification development for the go-ldap-redhat directory-lookup client.

Go strings are modelled as byte lists (`List Nat`), matching Go's byte-wise
string semantics.  Filesystem access and the directory-protocol connection
are modelled as explicit oracles (functions passed in), so every code path
of the embedded functions is a pure, executable Lean definition translated
from the source of the library (the v1.2.0 revision of the main source
file, whose line numbers the claims cite).
-/

namespace LdapRedhat

/-- Byte list of an ASCII Lean string literal (all source literals are ASCII). -/
def ascii (s : String) : List Nat := s.data.map Char.toNat

/-- Go-style result: either an error payload or a value. -/
inductive Res (ε α : Type) : Type where
  | err : ε → Res ε α
  | ok : α → Res ε α
deriving DecidableEq

/-- Config struct from the source: LDAP connection configuration. -/
structure Config where
  LdapServers : List (List Nat)
  Port : Int
  Username : List Nat
  Password : List Nat
  BaseDN : List Nat
  UseStartTLS : Bool
  VerifySSL : Bool
deriving DecidableEq

/-- The zero value of `Config` (all strings empty, booleans false). -/
def emptyConfig : Config :=
  { LdapServers := [], Port := 0, Username := [], Password := [],
    BaseDN := [], UseStartTLS := false, VerifySSL := false }

/-- UserRecord struct from the source. -/
structure UserRecord where
  UID : List Nat
  Email : List Nat
  DisplayName : List Nat
  Surname : List Nat
  Title : List Nat
  ManagerUID : List Nat
  CostCenter : List Nat
  CostCenterDesc : List Nat
  RhatLocation : List Nat
  RhatJobCode : List Nat
  RhatUUID : List Nat
  RhatHireDate : List Nat
  RhatTermDate : List Nat
  RhatAdjSvcDate : List Nat
deriving DecidableEq

/-- Identifier struct from the source (`Type` is a Lean keyword, so the
field is named `typ`; it models the Go `int` field `Type`). -/
structure Identifier where
  typ : Int
  Value : List Nat
deriving DecidableEq

/-- Identifier-kind constant `IDTUID = iota = 0`. -/
def IDTUID : Int := 0

/-- Identifier-kind constant `IDTEmail = 1`. -/
def IDTEmail : Int := 1

/-- One directory entry: attribute-name to value association list.
`GetAttributeValue` returns the first value of the attribute or "". -/
structure Entry where
  attrs : List (List Nat × List Nat)
deriving DecidableEq

/-- Model of go-ldap `Entry.GetAttributeValue`: first value for the
attribute name, or the empty string when the attribute is absent. -/
def getAttributeValue (e : Entry) (name : List Nat) : List Nat :=
  match e.attrs.find? (fun p => p.fst == name) with
  | some p => p.snd
  | none => []

/-- Search request as built by `ldap.NewSearchRequest` in `GetUser`
(controls, always nil in the source, are omitted). -/
structure SearchRequest where
  BaseDN : List Nat
  Scope : Nat
  DerefAliases : Nat
  SizeLimit : Nat
  TimeLimit : Nat
  TypesOnly : Bool
  Filter : List Nat
  Attributes : List (List Nat)
deriving DecidableEq

/-- Search result from the directory: the list of matching entries. -/
structure SearchResult where
  entries : List Entry
deriving DecidableEq

/-- A live connection, modelled by its observable behaviour on the one
operation `GetUser` uses: `Search`. -/
def Conn : Type := SearchRequest → Res (List Nat) SearchResult

/-- Searcher struct from the source: a Config plus an optional live
connection (`conn == nil` is modelled as `none`). -/
structure Searcher where
  config : Config
  conn : Option Conn

/-- Byte predicate of go-ldap `mustEscape`: bytes above 0x7f and the five
structural filter bytes `(`, `)`, `\`, `*`, NUL must be escaped. -/
def mustEscape (c : Nat) : Bool :=
  decide (c > 0x7f) || c == 40 || c == 41 || c == 92 || c == 42 || c == 0

/-- Lower-case hex digit byte, as indexing into "0123456789abcdef". -/
def hexDigit (n : Nat) : Nat :=
  if n < 10 then 48 + n else 87 + n

/-- Model of go-ldap `ldap.EscapeFilter` (the reference escaping routine
called by `GetUser`): each byte that must be escaped is replaced by a
backslash followed by its two lower-case hex digits. -/
def EscapeFilter : List Nat → List Nat
  | [] => []
  | c :: rest =>
    (if mustEscape c then [92, hexDigit (c / 16), hexDigit (c % 16)] else [c])
      ++ EscapeFilter rest

/-- The fixed attribute list `GetUser` requests. -/
def requestedAttributes : List (List Nat) :=
  [ascii "uid", ascii "mail", ascii "cn", ascii "sn", ascii "title",
   ascii "manager", ascii "rhatCostCenter", ascii "rhatLocation",
   ascii "rhatJobCode", ascii "rhatUUID", ascii "rhatHireDate",
   ascii "rhatTermDate"]

/-- The search request `GetUser` builds: hard-coded base DN
"ou=users,dc=redhat,dc=com", whole-subtree scope (2), never-deref
aliases (0), no size or time limit, typesOnly false, the given filter,
and the fixed attribute list. -/
def mkRequest (filter : List Nat) : SearchRequest :=
  { BaseDN := ascii "ou=users,dc=redhat,dc=com"
    Scope := 2
    DerefAliases := 0
    SizeLimit := 0
    TimeLimit := 0
    TypesOnly := false
    Filter := filter
    Attributes := requestedAttributes }

/-- Mapping of the first result entry into a UserRecord, exactly the
struct literal in `GetUser` (CostCenterDesc and RhatAdjSvcDate are not
assigned, so they keep the zero value ""). -/
def entryToUser (entry : Entry) : UserRecord :=
  { UID := getAttributeValue entry (ascii "uid")
    Email := getAttributeValue entry (ascii "mail")
    DisplayName := getAttributeValue entry (ascii "cn")
    Surname := getAttributeValue entry (ascii "sn")
    Title := getAttributeValue entry (ascii "title")
    ManagerUID := getAttributeValue entry (ascii "manager")
    CostCenter := getAttributeValue entry (ascii "rhatCostCenter")
    CostCenterDesc := []
    RhatLocation := getAttributeValue entry (ascii "rhatLocation")
    RhatJobCode := getAttributeValue entry (ascii "rhatJobCode")
    RhatUUID := getAttributeValue entry (ascii "rhatUUID")
    RhatHireDate := getAttributeValue entry (ascii "rhatHireDate")
    RhatTermDate := getAttributeValue entry (ascii "rhatTermDate")
    RhatAdjSvcDate := [] }

/-- The tail of `GetUser` after the filter is chosen (source lines
485-516): build the request, run the search, handle the error, the
zero-entry, and the at-least-one-entry cases.  The first component
records the request actually issued to the connection. -/
def runSearch (search : Conn) (idValue filter : List Nat) :
    Option SearchRequest × Res (List Nat) UserRecord :=
  let req := mkRequest filter
  match search req with
  | .err e => (some req, .err (ascii "LDAP search failed: " ++ e))
  | .ok result =>
    match result.entries with
    | [] => (some req, .err (ascii "user not found in LDAP directory: " ++ idValue))
    | entry :: _ => (some req, .ok (entryToUser entry))

/-- GetUser from the source (the `ctx` parameter is never consulted by the
code and is omitted).  The first component is the search request issued,
`none` when no network operation was attempted. -/
def GetUser (s : Searcher) (id : Identifier) :
    Option SearchRequest × Res (List Nat) UserRecord :=
  match s.conn with
  | none => (none, .err (ascii "LDAP connection not established"))
  | some search =>
    if id.typ = IDTUID then
      runSearch search id.Value (ascii "(uid=" ++ EscapeFilter id.Value ++ ascii ")")
    else if id.typ = IDTEmail then
      runSearch search id.Value (ascii "(mail=" ++ EscapeFilter id.Value ++ ascii ")")
    else
      (none, .err (ascii "unknown identifier type: " ++ ascii (toString id.typ)))

/-- Model of Go `strings.TrimPrefix`: drop `pre` from the front of `s`
when it is a prefix, otherwise return `s` unchanged. -/
def trimLeading (pre s : List Nat) : List Nat :=
  if pre.isPrefixOf s then s.drop pre.length else s

/-- Index of the first occurrence of byte `c`, as Go `strings.Index`
(`none` models the return value -1). -/
def byteIndex (c : Nat) : List Nat → Option Nat
  | [] => none
  | b :: rest => if b = c then some 0 else (byteIndex c rest).map (· + 1)

/-- extractHostname from the source: strip a leading "ldap://" then
"ldaps://" scheme token, then cut at the first ':' when present. -/
def extractHostname (ldapURL : List Nat) : List Nat :=
  let url := trimLeading (ascii "ldap://") ldapURL
  let url := trimLeading (ascii "ldaps://") url
  match byteIndex 58 url with
  | some i => url.take i
  | none => url

/-- ASCII whitespace bytes, the byte-level fast path of Go
`strings.TrimSpace` (tab, LF, VT, FF, CR, space). -/
def isSpaceByte (c : Nat) : Bool :=
  c == 9 || c == 10 || c == 11 || c == 12 || c == 13 || c == 32

/-- Model of Go `strings.TrimSpace` on byte strings: drop whitespace from
both ends. -/
def trimSpace (l : List Nat) : List Nat :=
  ((l.dropWhile isSpaceByte).reverse.dropWhile isSpaceByte).reverse

/-- A filesystem, modelled by what `os.ReadFile` observes: the readable
contents of a path, or `none` for any read failure (nonexistent path,
permission denied, any I/O error). -/
def FileSystem : Type := List Nat → Option (List Nat)

/-- readSecretFile from the source (v1.2.0 revision): return the trimmed
contents, or the empty string when the file cannot be read; it has no
error result at all. -/
def readSecretFile (fs : FileSystem) (path : List Nat) : List Nat :=
  match fs path with
  | none => []
  | some data => trimSpace data

/-- tls.Config as filled in by NewSearcher. -/
structure TLSConfig where
  InsecureSkipVerify : Bool
  ServerName : List Nat

/-- The network operations NewSearcher performs, as oracles: DialURL
yields a connection or fails; StartTLS and Bind yield the (upgraded /
authenticated) connection or fail. -/
structure Net where
  dialURL : List Nat → Res (List Nat) Conn
  startTLS : Conn → TLSConfig → Res (List Nat) Conn
  bind : Conn → List Nat → List Nat → Res (List Nat) Conn

/-- NewSearcher from the source: with an empty server list return a
Searcher with no connection and no error; otherwise dial the first
server, optionally upgrade with StartTLS (closing the connection on
failure), optionally bind when both username and password are non-empty
(closing on failure), and return the connected Searcher. -/
def NewSearcher (net : Net) (config : Config) : Res (List Nat) Searcher :=
  if config.LdapServers.length = 0 then
    .ok { config := config, conn := none }
  else
    let ldapURL := config.LdapServers.headD []
    match net.dialURL ldapURL with
    | .err e =>
      .err (ascii "failed to connect to LDAP server " ++ ldapURL ++ ascii ": " ++ e)
    | .ok conn =>
      let afterTLS : Res (List Nat) Conn :=
        if config.UseStartTLS then
          match net.startTLS conn
              { InsecureSkipVerify := !config.VerifySSL
                ServerName := extractHostname ldapURL } with
          | .err e => .err (ascii "failed to start TLS: " ++ e)
          | .ok c => .ok c
        else .ok conn
      match afterTLS with
      | .err e => .err e
      | .ok conn2 =>
        if config.Username ≠ [] ∧ config.Password ≠ [] then
          match net.bind conn2 config.Username config.Password with
          | .err e => .err (ascii "failed to bind to LDAP: " ++ e)
          | .ok conn3 => .ok { config := config, conn := some conn3 }
        else .ok { config := config, conn := some conn2 }

/-- Close from the source: call conn.Close() only when a connection is
held, and always return a nil error.  The Bool records whether the
underlying connection was closed (the only side effect). -/
def Close (s : Searcher) : Bool × Option (List Nat) :=
  (s.conn.isSome, none)

/-- Step 2a of loadConfigFromAll (v1.2.0): fill LdapServers from
LDAP_URL only when the current list is empty. -/
def fillServers (getenv : List Nat → List Nat) (c : Config) : Config :=
  if c.LdapServers.length = 0 then
    if getenv (ascii "LDAP_URL") ≠ [] then
      { c with LdapServers := [getenv (ascii "LDAP_URL")] }
    else c
  else c

/-- Step 2b of loadConfigFromAll: fill Username from LDAP_BIND_DN only
when empty. -/
def fillUsername (getenv : List Nat → List Nat) (c : Config) : Config :=
  if c.Username = [] then
    if getenv (ascii "LDAP_BIND_DN") ≠ [] then
      { c with Username := getenv (ascii "LDAP_BIND_DN") }
    else c
  else c

/-- Step 2c of loadConfigFromAll: fill BaseDN from LDAP_BASE_DN only
when empty. -/
def fillBaseDN (getenv : List Nat → List Nat) (c : Config) : Config :=
  if c.BaseDN = [] then
    if getenv (ascii "LDAP_BASE_DN") ≠ [] then
      { c with BaseDN := getenv (ascii "LDAP_BASE_DN") }
    else c
  else c

/-- First half of the password chain of loadConfigFromAll: try the file
named by LDAP_PASSWORD_FILE via readSecretFile. -/
def fillPasswordFile (getenv : List Nat → List Nat) (fs : FileSystem) (c : Config) : Config :=
  if getenv (ascii "LDAP_PASSWORD_FILE") ≠ [] then
    if readSecretFile fs (getenv (ascii "LDAP_PASSWORD_FILE")) ≠ [] then
      { c with Password := readSecretFile fs (getenv (ascii "LDAP_PASSWORD_FILE")) }
    else c
  else c

/-- Password chain of loadConfigFromAll: when still empty, try the file
named by LDAP_PASSWORD_FILE via readSecretFile, then fall back to
LDAP_PASSWORD. -/
def fillPassword (getenv : List Nat → List Nat) (fs : FileSystem) (c : Config) : Config :=
  if c.Password = [] then
    if (fillPasswordFile getenv fs c).Password = [] then
      if getenv (ascii "LDAP_PASSWORD") ≠ [] then
        { fillPasswordFile getenv fs c with Password := getenv (ascii "LDAP_PASSWORD") }
      else fillPasswordFile getenv fs c
    else fillPasswordFile getenv fs c
  else c

/-- Boolean-flag step of loadConfigFromAll: LDAP_START_TLS, when set at
all, forces UseStartTLS to the comparison against "true". -/
def setStartTLS (getenv : List Nat → List Nat) (c : Config) : Config :=
  if getenv (ascii "LDAP_START_TLS") ≠ [] then
    { c with UseStartTLS := getenv (ascii "LDAP_START_TLS") = ascii "true" }
  else c

/-- Boolean-flag step of loadConfigFromAll: LDAP_VERIFY_SSL, when set at
all, forces VerifySSL to the comparison against "true". -/
def setVerifySSL (getenv : List Nat → List Nat) (c : Config) : Config :=
  if getenv (ascii "LDAP_VERIFY_SSL") ≠ [] then
    { c with VerifySSL := getenv (ascii "LDAP_VERIFY_SSL") = ascii "true" }
  else c

/-- loadConfigFromAll from the source (v1.2.0 revision), parametrised by
the contribution of the structured-file layer (`yaml`, the result of
loadYAMLConfig), the environment (`getenv`; Go os.Getenv returns "" for
an unset variable) and the filesystem.  The env-var steps run in source
order; each fills its field only when the field is still empty. -/
def loadConfigFromAll (yaml : Option Config) (getenv : List Nat → List Nat)
    (fs : FileSystem) : Config :=
  setVerifySSL getenv (setStartTLS getenv (fillPassword getenv fs
    (fillBaseDN getenv (fillUsername getenv (fillServers getenv
      (yaml.getD emptyConfig))))))

/-- A directory connection whose search always succeeds with zero
matching entries. -/
def searchStub : Conn := fun _ => .ok { entries := [] }

/-- One concrete directory entry carrying only a uid attribute. -/
def entryJdoe : Entry := { attrs := [(ascii "uid", ascii "jdoe")] }

/-- A directory connection whose search always returns the one entry
`entryJdoe`. -/
def connOne : Conn := fun _ => .ok { entries := [entryJdoe] }

/-- A Searcher that was never connected. -/
def noConn : Searcher := { config := emptyConfig, conn := none }

/-- A network oracle whose dial always fails and whose upgrade and bind
always succeed (never consulted by the empty-server path). -/
def netStub : Net :=
  { dialURL := fun _ => .err []
    startTLS := fun c _ => .ok c
    bind := fun c _ _ => .ok c }

/-- A configuration whose search base differs from the hard-coded one in
`GetUser`. -/
def cfgExample : Config :=
  { emptyConfig with
    LdapServers := [ascii "ldap://test:389"]
    BaseDN := ascii "dc=example,dc=com" }

/-- A structured-file layer that supplies a non-empty bind identity. -/
def yamlLayer : Config := { emptyConfig with Username := ascii "cn=yaml" }

/-- An environment where only LDAP_BIND_DN is set (non-empty). -/
def envBind : List Nat → List Nat :=
  fun k => if k = ascii "LDAP_BIND_DN" then ascii "cn=env" else []

/-- An environment where every variable is set to the same non-empty
value "x". -/
def envFull : List Nat → List Nat := fun _ => ascii "x"

/-- A filesystem with no readable files. -/
def fsNone : FileSystem := fun _ => none

/-- A filesystem with a single readable file whose contents carry
surrounding whitespace. -/
def fsStub : FileSystem :=
  fun p => if p = ascii "/etc/secret" then some (ascii "  pw\n") else none

/-- Whatever the search outcome, `runSearch` issues exactly the request
built from its filter argument. -/
theorem runSearch_fst (search : Conn) (v f : List Nat) :
    (runSearch search v f).fst = some (mkRequest f) := by
  unfold runSearch
  cases hs : search (mkRequest f) with
  | err e => simp [hs]
  | ok result =>
    cases hr : result.entries with
    | nil => simp [hs, hr]
    | cons entry t => simp [hs, hr]

/-- C8: extractHostname strips a leading scheme token and a trailing
port suffix on the four examples the spec fixes. -/
theorem extractHostname_examples :
    extractHostname (ascii "ldap://example.com:389") = ascii "example.com"
    ∧ extractHostname (ascii "ldaps://secure.example.com:636") = ascii "secure.example.com"
    ∧ extractHostname (ascii "host") = ascii "host"
    ∧ extractHostname (ascii "example.com:389") = ascii "example.com" := by
  decide

/-- C1: at a Configuration whose BaseDN is "dc=example,dc=com", GetUser
issues its search against the hard-coded base
"ou=users,dc=redhat,dc=com", not against the Configuration's BaseDN. -/
theorem getUser_base_dn_hardcoded :
    ((GetUser { config := cfgExample, conn := some searchStub }
        { typ := IDTUID, Value := ascii "jdoe" }).fst
      = some (mkRequest (ascii "(uid=jdoe)")))
    ∧ (mkRequest (ascii "(uid=jdoe)")).BaseDN = ascii "ou=users,dc=redhat,dc=com"
    ∧ (mkRequest (ascii "(uid=jdoe)")).BaseDN ≠ cfgExample.BaseDN := by
  decide

/-- C4 counterexample: on a connected Searcher, GetUser with an empty
identifier value still issues a search request (with filter "(uid=)"),
refuting the claim that no lookup proceeds for an empty value. -/
theorem getUser_empty_value_still_searches :
    (GetUser { config := emptyConfig, conn := some searchStub }
        { typ := IDTUID, Value := [] }).fst = some (mkRequest (ascii "(uid=)"))
    ∧ (GetUser { config := emptyConfig, conn := some searchStub }
        { typ := IDTUID, Value := [] }).fst ≠ none := by
  decide

/-- C4 amended: GetUser performs no emptiness check on the identifier
value; for every connected Searcher and either known kind, an empty
value proceeds to exactly one search, with filter "(uid=)" or
"(mail=)". -/
theorem getUser_no_empty_value_check :
    ∀ (config : Config) (search : Conn),
      (GetUser { config := config, conn := some search }
        { typ := IDTUID, Value := [] }).fst = some (mkRequest (ascii "(uid=)"))
      ∧ (GetUser { config := config, conn := some search }
        { typ := IDTEmail, Value := [] }).fst = some (mkRequest (ascii "(mail=)")) := by
  intro config search
  have hu : ascii "(uid=" ++ EscapeFilter [] ++ ascii ")" = ascii "(uid=)" := by decide
  have hm : ascii "(mail=" ++ EscapeFilter [] ++ ascii ")" = ascii "(mail=)" := by decide
  constructor
  · show (GetUser _ _).fst = _
    rw [show (GetUser { config := config, conn := some search }
          { typ := IDTUID, Value := [] })
        = runSearch search [] (ascii "(uid=" ++ EscapeFilter [] ++ ascii ")") by
      simp [GetUser, IDTUID]]
    rw [hu]
    exact runSearch_fst search [] (ascii "(uid=)")
  · show (GetUser _ _).fst = _
    rw [show (GetUser { config := config, conn := some search }
          { typ := IDTEmail, Value := [] })
        = runSearch search [] (ascii "(mail=" ++ EscapeFilter [] ++ ascii ")") by
      simp [GetUser, IDTUID, IDTEmail]]
    rw [hm]
    exact runSearch_fst search [] (ascii "(mail=)")

/-- C5: with no live connection GetUser returns the not-connected error
and performs no network operation, for every identifier; with a live
connection and an unknown kind it returns the invalid-identifier error
naming the kind value, without issuing a search. -/
theorem getUser_not_connected_and_unknown_kind :
    (∀ (s : Searcher) (id : Identifier), s.conn = none →
      GetUser s id = (none, .err (ascii "LDAP connection not established")))
    ∧ (∀ (s : Searcher) (search : Conn) (id : Identifier), s.conn = some search →
        id.typ ≠ IDTUID → id.typ ≠ IDTEmail →
        GetUser s id
          = (none, .err (ascii "unknown identifier type: " ++ ascii (toString id.typ)))) := by
  constructor
  · intro s id h
    simp [GetUser, h]
  · intro s search id h h0 h1
    simp [GetUser, h, h0, h1]

/-- C5 witness: the theorem applied to a never-connected Searcher and to
a connected Searcher with kind 999. -/
theorem getUser_not_connected_and_unknown_kind_witness :
    GetUser noConn { typ := IDTUID, Value := ascii "x" }
        = (none, .err (ascii "LDAP connection not established"))
    ∧ GetUser { config := emptyConfig, conn := some searchStub }
          { typ := 999, Value := ascii "x" }
        = (none, .err (ascii "unknown identifier type: " ++ ascii (toString (999 : Int)))) :=
  ⟨getUser_not_connected_and_unknown_kind.1 noConn _ rfl,
   getUser_not_connected_and_unknown_kind.2 _ searchStub _ rfl (by decide) (by decide)⟩

/-- C7: when the directory returns zero matching entries, GetUser returns
the not-found error whose message ends with exactly the original,
unescaped identifier value. -/
theorem getUser_not_found_carries_original_value :
    ∀ (config : Config) (search : Conn) (id : Identifier),
      (id.typ = IDTUID ∨ id.typ = IDTEmail) →
      (∀ req, search req = .ok { entries := [] }) →
      (GetUser { config := config, conn := some search } id).snd
        = .err (ascii "user not found in LDAP directory: " ++ id.Value) := by
  intro config search id hk hs
  rcases hk with h | h
  · simp [GetUser, h, runSearch, hs]
  · simp [GetUser, h, IDTUID, IDTEmail, runSearch, hs]

/-- C7 witness: looking up "jdoe" on a directory with no matching entry
yields the not-found error carrying "jdoe". -/
theorem getUser_not_found_carries_original_value_witness :
    (GetUser { config := emptyConfig, conn := some searchStub }
      { typ := IDTUID, Value := ascii "jdoe" }).snd
      = .err (ascii "user not found in LDAP directory: " ++ ascii "jdoe") :=
  getUser_not_found_carries_original_value emptyConfig searchStub _
    (Or.inl rfl) (fun _ => rfl)

/-- The escape output of a single byte never contains a raw structural
filter byte (NUL, parenthesis, star). -/
theorem escape_no_structural (v : List Nat) (c : Nat) (hc : c ∈ EscapeFilter v) :
    c ≠ 0 ∧ c ≠ 40 ∧ c ≠ 41 ∧ c ≠ 42 := by
  induction v with
  | nil => simp [EscapeFilter] at hc
  | cons b rest ih =>
    simp only [EscapeFilter] at hc
    rcases List.mem_append.mp hc with h | h
    · by_cases hb : mustEscape b
      · rw [if_pos hb] at h
        simp only [List.mem_cons, List.not_mem_nil, or_false] at h
        rcases h with rfl | rfl | rfl
        · omega
        · unfold hexDigit; split <;> omega
        · unfold hexDigit; split <;> omega
      · rw [if_neg hb] at h
        simp only [List.mem_cons, List.not_mem_nil, or_false] at h
        subst h
        unfold mustEscape at hb
        simp only [Bool.or_eq_true, decide_eq_true_eq, beq_iff_eq, not_or] at hb
        omega
    · exact ih h

/-- C3: for each known kind the filter GetUser issues embeds the value
only through EscapeFilter (the reference escaping routine modelled from
the library); escaped output never contains a raw structural byte, and
on the spec's example "a)(uid=*" the escaping replaces every structural
character, preserving the filter's boolean structure. -/
theorem getUser_filter_escapes_value :
    (∀ (config : Config) (search : Conn) (id : Identifier), id.typ = IDTUID →
      (GetUser { config := config, conn := some search } id).fst
        = some (mkRequest (ascii "(uid=" ++ EscapeFilter id.Value ++ ascii ")")))
    ∧ (∀ (config : Config) (search : Conn) (id : Identifier), id.typ = IDTEmail →
      (GetUser { config := config, conn := some search } id).fst
        = some (mkRequest (ascii "(mail=" ++ EscapeFilter id.Value ++ ascii ")")))
    ∧ (∀ (v : List Nat) (c : Nat), c ∈ EscapeFilter v →
        c ≠ 0 ∧ c ≠ 40 ∧ c ≠ 41 ∧ c ≠ 42)
    ∧ EscapeFilter (ascii "a)(uid=*") = ascii "a\\29\\28uid=\\2a" := by
  refine ⟨?_, ?_, escape_no_structural, by decide⟩
  · intro config search id h
    rw [show GetUser { config := config, conn := some search } id
        = runSearch search id.Value (ascii "(uid=" ++ EscapeFilter id.Value ++ ascii ")") by
      simp [GetUser, h]]
    exact runSearch_fst _ _ _
  · intro config search id h
    rw [show GetUser { config := config, conn := some search } id
        = runSearch search id.Value (ascii "(mail=" ++ EscapeFilter id.Value ++ ascii ")") by
      simp [GetUser, h, IDTUID, IDTEmail]]
    exact runSearch_fst _ _ _

/-- C3 witness: the theorem applied concretely, by uid with the
injection attempt "a)(uid=*", by mail with "x", and to the byte 97 of an
escaped output. -/
theorem getUser_filter_escapes_value_witness :
    ((GetUser { config := emptyConfig, conn := some searchStub }
        { typ := IDTUID, Value := ascii "a)(uid=*" }).fst
      = some (mkRequest (ascii "(uid=" ++ EscapeFilter (ascii "a)(uid=*") ++ ascii ")")))
    ∧ ((GetUser { config := emptyConfig, conn := some searchStub }
        { typ := IDTEmail, Value := ascii "x" }).fst
      = some (mkRequest (ascii "(mail=" ++ EscapeFilter (ascii "x") ++ ascii ")")))
    ∧ ((97 : Nat) ≠ 0 ∧ (97 : Nat) ≠ 40 ∧ (97 : Nat) ≠ 41 ∧ (97 : Nat) ≠ 42) :=
  ⟨getUser_filter_escapes_value.1 emptyConfig searchStub _ rfl,
   getUser_filter_escapes_value.2.1 emptyConfig searchStub _ rfl,
   getUser_filter_escapes_value.2.2.1 (ascii "a") 97 (by decide)⟩

/-- C6: a Configuration with an empty server list yields, for every
network oracle, a Searcher with no connection and no error; Close always
returns a nil error, and on a never-connected Searcher it touches no
connection at all. -/
theorem newSearcher_empty_servers_and_close_noop :
    (∀ (net : Net) (config : Config), config.LdapServers = [] →
      NewSearcher net config = .ok { config := config, conn := none })
    ∧ (∀ s : Searcher, (Close s).snd = none)
    ∧ (∀ s : Searcher, s.conn = none → Close s = (false, none)) := by
  refine ⟨?_, ?_, ?_⟩
  · intro net config h
    simp [NewSearcher, h]
  · intro s
    rfl
  · intro s h
    simp [Close, h]

/-- C6 witness: the theorem applied to the all-empty Configuration and a
never-connected Searcher. -/
theorem newSearcher_empty_servers_and_close_noop_witness :
    NewSearcher netStub emptyConfig = .ok { config := emptyConfig, conn := none }
    ∧ Close noConn = (false, none) :=
  ⟨newSearcher_empty_servers_and_close_noop.1 netStub emptyConfig rfl,
   newSearcher_empty_servers_and_close_noop.2.2 noConn rfl⟩

/-- When runSearch succeeds, the returned record is the mapping of some
entry, so its two unassigned fields are empty. -/
theorem runSearch_ok_fields (search : Conn) (v f : List Nat) (user : UserRecord)
    (h : (runSearch search v f).snd = .ok user) :
    user.CostCenterDesc = [] ∧ user.RhatAdjSvcDate = [] := by
  unfold runSearch at h
  cases hs : search (mkRequest f) with
  | err e => simp [hs] at h
  | ok result =>
    cases hr : result.entries with
    | nil => simp [hs, hr] at h
    | cons entry t =>
      simp [hs, hr] at h
      rw [← h]
      exact ⟨rfl, rfl⟩

/-- Every request GetUser issues carries the fixed attribute list. -/
theorem getUser_attributes (s : Searcher) (id : Identifier) (req : SearchRequest)
    (h : (GetUser s id).fst = some req) : req.Attributes = requestedAttributes := by
  obtain ⟨config, conn⟩ := s
  cases conn with
  | none => simp [GetUser] at h
  | some search =>
    by_cases h0 : id.typ = IDTUID
    · rw [show GetUser { config := config, conn := some search } id
          = runSearch search id.Value (ascii "(uid=" ++ EscapeFilter id.Value ++ ascii ")") by
        simp [GetUser, h0]] at h
      rw [runSearch_fst] at h
      cases h
      rfl
    · by_cases h1 : id.typ = IDTEmail
      · rw [show GetUser { config := config, conn := some search } id
            = runSearch search id.Value (ascii "(mail=" ++ EscapeFilter id.Value ++ ascii ")") by
          simp [GetUser, h1, IDTUID, IDTEmail]] at h
        rw [runSearch_fst] at h
        cases h
        rfl
      · simp [GetUser, h0, h1] at h

/-- C10: on every successful GetUser the returned record's
CostCenterDesc and RhatAdjSvcDate are empty, and every request issued
asks exactly for the fixed twelve attributes, which include none for
those two fields. -/
theorem getUser_unassigned_record_fields :
    ∀ (s : Searcher) (id : Identifier),
      (∀ user, (GetUser s id).snd = .ok user →
        user.CostCenterDesc = [] ∧ user.RhatAdjSvcDate = [])
      ∧ (∀ req, (GetUser s id).fst = some req →
          req.Attributes = requestedAttributes
          ∧ ascii "rhatCostCenterDesc" ∉ req.Attributes
          ∧ ascii "rhatAdjSvcDate" ∉ req.Attributes) := by
  intro s id
  constructor
  · intro user h
    obtain ⟨config, conn⟩ := s
    cases conn with
    | none => simp [GetUser] at h
    | some search =>
      by_cases h0 : id.typ = IDTUID
      · rw [show GetUser { config := config, conn := some search } id
            = runSearch search id.Value (ascii "(uid=" ++ EscapeFilter id.Value ++ ascii ")") by
          simp [GetUser, h0]] at h
        exact runSearch_ok_fields _ _ _ _ h
      · by_cases h1 : id.typ = IDTEmail
        · rw [show GetUser { config := config, conn := some search } id
              = runSearch search id.Value (ascii "(mail=" ++ EscapeFilter id.Value ++ ascii ")") by
            simp [GetUser, h1, IDTUID, IDTEmail]] at h
          exact runSearch_ok_fields _ _ _ _ h
        · simp [GetUser, h0, h1] at h
  · intro req h
    have ha := getUser_attributes s id req h
    refine ⟨ha, ?_, ?_⟩ <;> rw [ha] <;> decide

/-- C10 witness: the theorem applied to a directory holding one entry
with uid "jdoe". -/
theorem getUser_unassigned_record_fields_witness :
    ((entryToUser entryJdoe).CostCenterDesc = []
      ∧ (entryToUser entryJdoe).RhatAdjSvcDate = [])
    ∧ ((mkRequest (ascii "(uid=jdoe)")).Attributes = requestedAttributes
      ∧ ascii "rhatCostCenterDesc" ∉ (mkRequest (ascii "(uid=jdoe)")).Attributes
      ∧ ascii "rhatAdjSvcDate" ∉ (mkRequest (ascii "(uid=jdoe)")).Attributes) :=
  ⟨(getUser_unassigned_record_fields
      { config := emptyConfig, conn := some connOne }
      { typ := IDTUID, Value := ascii "jdoe" }).1 (entryToUser entryJdoe) (by decide),
   (getUser_unassigned_record_fields
      { config := emptyConfig, conn := some connOne }
      { typ := IDTUID, Value := ascii "jdoe" }).2 (mkRequest (ascii "(uid=jdoe)")) (by decide)⟩

/-- dropWhile removes only a front segment: the result is a suffix. -/
theorem dropWhile_sub (p : Nat → Bool) (l : List Nat) :
    ∃ pre, l = pre ++ l.dropWhile p := by
  induction l with
  | nil => exact ⟨[], rfl⟩
  | cons a t ih =>
    by_cases h : p a
    · obtain ⟨pre, hp⟩ := ih
      refine ⟨a :: pre, ?_⟩
      rw [List.dropWhile_cons, if_pos h]
      simpa using hp
    · refine ⟨[], ?_⟩
      rw [List.dropWhile_cons, if_neg h]
      rfl

/-- The head of a dropWhile result never satisfies the predicate. -/
theorem head?_dropWhile (p : Nat → Bool) (l : List Nat) (c : Nat)
    (h : (l.dropWhile p).head? = some c) : p c = false := by
  induction l with
  | nil => simp at h
  | cons a t ih =>
    rw [List.dropWhile_cons] at h
    by_cases hp : p a
    · rw [if_pos hp] at h
      exact ih h
    · rw [if_neg hp] at h
      simp only [List.head?_cons, Option.some.injEq] at h
      subst h
      exact Bool.not_eq_true _ |>.mp hp

/-- C9: the secret reader is total (it has no error result at all): a
failed read yields the empty string, a successful read yields the
trimmed contents, which are a contiguous segment of the file with no
whitespace byte at either end. -/
theorem readSecretFile_contract :
    ∀ (fs : FileSystem) (path : List Nat),
      (fs path = none → readSecretFile fs path = [])
      ∧ (∀ data, fs path = some data →
          readSecretFile fs path = trimSpace data
          ∧ (∃ pre suf, data = pre ++ trimSpace data ++ suf)
          ∧ (∀ c, (trimSpace data).head? = some c → isSpaceByte c = false)
          ∧ (∀ c, (trimSpace data).getLast? = some c → isSpaceByte c = false)) := by
  intro fs path
  constructor
  · intro h
    simp [readSecretFile, h]
  · intro data h
    refine ⟨by simp [readSecretFile, h], ?_, ?_, ?_⟩
    · obtain ⟨pre1, hp1⟩ := dropWhile_sub isSpaceByte data
      obtain ⟨pre2, hp2⟩ :=
        dropWhile_sub isSpaceByte (data.dropWhile isSpaceByte).reverse
      refine ⟨pre1, pre2.reverse, ?_⟩
      unfold trimSpace
      calc data = pre1 ++ data.dropWhile isSpaceByte := hp1
        _ = pre1 ++ ((data.dropWhile isSpaceByte).reverse).reverse := by
              rw [List.reverse_reverse]
        _ = pre1 ++ (pre2 ++ (data.dropWhile isSpaceByte).reverse.dropWhile isSpaceByte).reverse := by
              rw [← hp2]
        _ = pre1 ++ ((data.dropWhile isSpaceByte).reverse.dropWhile isSpaceByte).reverse
              ++ pre2.reverse := by
              rw [List.reverse_append, List.append_assoc]
    · intro c hc
      unfold trimSpace at hc
      rw [List.head?_reverse] at hc
      have hne : (data.dropWhile isSpaceByte).reverse.dropWhile isSpaceByte ≠ [] := by
        intro hnil
        rw [hnil] at hc
        simp at hc
      obtain ⟨pre, hp⟩ :=
        dropWhile_sub isSpaceByte (data.dropWhile isSpaceByte).reverse
      have hlast : ((data.dropWhile isSpaceByte).reverse).getLast? = some c := by
        rw [hp, List.getLast?_append_of_ne_nil _ hne]
        exact hc
      rw [List.getLast?_reverse] at hlast
      exact head?_dropWhile isSpaceByte data c hlast
    · intro c hc
      unfold trimSpace at hc
      rw [List.getLast?_reverse] at hc
      exact head?_dropWhile isSpaceByte (data.dropWhile isSpaceByte).reverse c hc

/-- C9 witness: the contract applied to a filesystem with one readable
file " pw\n" and to an unreadable path. -/
theorem readSecretFile_contract_witness :
    readSecretFile fsStub (ascii "/nonexistent/path/file") = []
    ∧ readSecretFile fsStub (ascii "/etc/secret") = trimSpace (ascii "  pw\n") :=
  ⟨(readSecretFile_contract fsStub (ascii "/nonexistent/path/file")).1 (by decide),
   ((readSecretFile_contract fsStub (ascii "/etc/secret")).2 (ascii "  pw\n") (by decide)).1⟩

/-- fillServers touches only LdapServers. -/
theorem fillServers_Username (g : List Nat → List Nat) (c : Config) :
    (fillServers g c).Username = c.Username := by
  unfold fillServers; split_ifs <;> rfl

/-- fillServers touches only LdapServers. -/
theorem fillServers_BaseDN (g : List Nat → List Nat) (c : Config) :
    (fillServers g c).BaseDN = c.BaseDN := by
  unfold fillServers; split_ifs <;> rfl

/-- fillUsername touches only Username. -/
theorem fillUsername_LdapServers (g : List Nat → List Nat) (c : Config) :
    (fillUsername g c).LdapServers = c.LdapServers := by
  unfold fillUsername; split_ifs <;> rfl

/-- fillUsername touches only Username. -/
theorem fillUsername_BaseDN (g : List Nat → List Nat) (c : Config) :
    (fillUsername g c).BaseDN = c.BaseDN := by
  unfold fillUsername; split_ifs <;> rfl

/-- fillBaseDN touches only BaseDN. -/
theorem fillBaseDN_LdapServers (g : List Nat → List Nat) (c : Config) :
    (fillBaseDN g c).LdapServers = c.LdapServers := by
  unfold fillBaseDN; split_ifs <;> rfl

/-- fillBaseDN touches only BaseDN. -/
theorem fillBaseDN_Username (g : List Nat → List Nat) (c : Config) :
    (fillBaseDN g c).Username = c.Username := by
  unfold fillBaseDN; split_ifs <;> rfl

/-- fillPasswordFile touches only Password. -/
theorem fillPasswordFile_LdapServers (g : List Nat → List Nat) (fs : FileSystem) (c : Config) :
    (fillPasswordFile g fs c).LdapServers = c.LdapServers := by
  unfold fillPasswordFile; split_ifs <;> rfl

/-- fillPasswordFile touches only Password. -/
theorem fillPasswordFile_Username (g : List Nat → List Nat) (fs : FileSystem) (c : Config) :
    (fillPasswordFile g fs c).Username = c.Username := by
  unfold fillPasswordFile; split_ifs <;> rfl

/-- fillPasswordFile touches only Password. -/
theorem fillPasswordFile_BaseDN (g : List Nat → List Nat) (fs : FileSystem) (c : Config) :
    (fillPasswordFile g fs c).BaseDN = c.BaseDN := by
  unfold fillPasswordFile; split_ifs <;> rfl

/-- fillPassword touches only Password. -/
theorem fillPassword_LdapServers (g : List Nat → List Nat) (fs : FileSystem) (c : Config) :
    (fillPassword g fs c).LdapServers = c.LdapServers := by
  unfold fillPassword
  split_ifs <;> simp [fillPasswordFile_LdapServers]

/-- fillPassword touches only Password. -/
theorem fillPassword_Username (g : List Nat → List Nat) (fs : FileSystem) (c : Config) :
    (fillPassword g fs c).Username = c.Username := by
  unfold fillPassword
  split_ifs <;> simp [fillPasswordFile_Username]

/-- fillPassword touches only Password. -/
theorem fillPassword_BaseDN (g : List Nat → List Nat) (fs : FileSystem) (c : Config) :
    (fillPassword g fs c).BaseDN = c.BaseDN := by
  unfold fillPassword
  split_ifs <;> simp [fillPasswordFile_BaseDN]

/-- setStartTLS touches only UseStartTLS. -/
theorem setStartTLS_LdapServers (g : List Nat → List Nat) (c : Config) :
    (setStartTLS g c).LdapServers = c.LdapServers := by
  unfold setStartTLS; split_ifs <;> rfl

/-- setStartTLS touches only UseStartTLS. -/
theorem setStartTLS_Username (g : List Nat → List Nat) (c : Config) :
    (setStartTLS g c).Username = c.Username := by
  unfold setStartTLS; split_ifs <;> rfl

/-- setStartTLS touches only UseStartTLS. -/
theorem setStartTLS_BaseDN (g : List Nat → List Nat) (c : Config) :
    (setStartTLS g c).BaseDN = c.BaseDN := by
  unfold setStartTLS; split_ifs <;> rfl

/-- setVerifySSL touches only VerifySSL. -/
theorem setVerifySSL_LdapServers (g : List Nat → List Nat) (c : Config) :
    (setVerifySSL g c).LdapServers = c.LdapServers := by
  unfold setVerifySSL; split_ifs <;> rfl

/-- setVerifySSL touches only VerifySSL. -/
theorem setVerifySSL_Username (g : List Nat → List Nat) (c : Config) :
    (setVerifySSL g c).Username = c.Username := by
  unfold setVerifySSL; split_ifs <;> rfl

/-- setVerifySSL touches only VerifySSL. -/
theorem setVerifySSL_BaseDN (g : List Nat → List Nat) (c : Config) :
    (setVerifySSL g c).BaseDN = c.BaseDN := by
  unfold setVerifySSL; split_ifs <;> rfl

/-- C2 counterexample: with a structured-file layer supplying the bind
identity "cn=yaml" and LDAP_BIND_DN set to the non-empty "cn=env", the
final configuration keeps the structured-file value, so the environment
variable did not override it. -/
theorem loadConfig_env_does_not_override :
    (loadConfigFromAll (some yamlLayer) envBind fsNone).Username = ascii "cn=yaml"
    ∧ (loadConfigFromAll (some yamlLayer) envBind fsNone).Username ≠ ascii "cn=env" := by
  decide

/-- C2 amended: for server URL, bind identity and search base the
environment variable fills the field only when the structured-file layer
left it empty; a non-empty structured-file value is kept unchanged. -/
theorem loadConfig_fill_if_empty :
    ∀ (c : Config) (getenv : List Nat → List Nat) (fs : FileSystem),
      ((c.LdapServers ≠ [] →
        (loadConfigFromAll (some c) getenv fs).LdapServers = c.LdapServers)
      ∧ (c.LdapServers = [] → getenv (ascii "LDAP_URL") ≠ [] →
        (loadConfigFromAll (some c) getenv fs).LdapServers = [getenv (ascii "LDAP_URL")]))
      ∧ ((c.Username ≠ [] →
        (loadConfigFromAll (some c) getenv fs).Username = c.Username)
      ∧ (c.Username = [] → getenv (ascii "LDAP_BIND_DN") ≠ [] →
        (loadConfigFromAll (some c) getenv fs).Username = getenv (ascii "LDAP_BIND_DN")))
      ∧ ((c.BaseDN ≠ [] →
        (loadConfigFromAll (some c) getenv fs).BaseDN = c.BaseDN)
      ∧ (c.BaseDN = [] → getenv (ascii "LDAP_BASE_DN") ≠ [] →
        (loadConfigFromAll (some c) getenv fs).BaseDN = getenv (ascii "LDAP_BASE_DN"))) := by
  intro c g fs
  have hS : (loadConfigFromAll (some c) g fs).LdapServers
      = (fillServers g c).LdapServers := by
    simp only [loadConfigFromAll, Option.getD, setVerifySSL_LdapServers,
      setStartTLS_LdapServers, fillPassword_LdapServers, fillBaseDN_LdapServers,
      fillUsername_LdapServers]
  have hU : (loadConfigFromAll (some c) g fs).Username
      = (fillUsername g (fillServers g c)).Username := by
    simp only [loadConfigFromAll, Option.getD, setVerifySSL_Username,
      setStartTLS_Username, fillPassword_Username, fillBaseDN_Username]
  have hB : (loadConfigFromAll (some c) g fs).BaseDN
      = (fillBaseDN g (fillUsername g (fillServers g c))).BaseDN := by
    simp only [loadConfigFromAll, Option.getD, setVerifySSL_BaseDN,
      setStartTLS_BaseDN, fillPassword_BaseDN]
  refine ⟨⟨?_, ?_⟩, ⟨?_, ?_⟩, ⟨?_, ?_⟩⟩
  · intro h
    rw [hS]
    unfold fillServers
    rw [if_neg (by simp [List.length_eq_zero, h])]
  · intro h he
    rw [hS]
    unfold fillServers
    rw [if_pos (by simp [h]), if_pos he]
  · intro h
    rw [hU]
    unfold fillUsername
    rw [fillServers_Username, if_neg h]
    exact fillServers_Username g c
  · intro h he
    rw [hU]
    unfold fillUsername
    rw [fillServers_Username, if_pos h, if_pos he]
  · intro h
    rw [hB]
    unfold fillBaseDN
    rw [fillUsername_BaseDN, fillServers_BaseDN, if_neg h]
    rw [fillUsername_BaseDN, fillServers_BaseDN]
  · intro h he
    rw [hB]
    unfold fillBaseDN
    rw [fillUsername_BaseDN, fillServers_BaseDN, if_pos h, if_pos he]

/-- C2 amended witness: with the structured layer supplying only a bind
identity and every variable set to "x", the bind identity is kept while
search base and server list are filled from the environment. -/
theorem loadConfig_fill_if_empty_witness :
    (loadConfigFromAll (some yamlLayer) envFull fsNone).Username = yamlLayer.Username
    ∧ (loadConfigFromAll (some yamlLayer) envFull fsNone).BaseDN
        = envFull (ascii "LDAP_BASE_DN")
    ∧ (loadConfigFromAll (some yamlLayer) envFull fsNone).LdapServers
        = [envFull (ascii "LDAP_URL")]
    ∧ (loadConfigFromAll (some cfgExample) envFull fsNone).LdapServers
        = cfgExample.LdapServers
    ∧ (loadConfigFromAll (some cfgExample) envFull fsNone).BaseDN = cfgExample.BaseDN
    ∧ (loadConfigFromAll (some cfgExample) envFull fsNone).Username
        = envFull (ascii "LDAP_BIND_DN") :=
  ⟨(loadConfig_fill_if_empty yamlLayer envFull fsNone).2.1.1 (by decide),
   (loadConfig_fill_if_empty yamlLayer envFull fsNone).2.2.2 (by decide) (by decide),
   (loadConfig_fill_if_empty yamlLayer envFull fsNone).1.2 (by decide) (by decide),
   (loadConfig_fill_if_empty cfgExample envFull fsNone).1.1 (by decide),
   (loadConfig_fill_if_empty cfgExample envFull fsNone).2.2.1 (by decide),
   (loadConfig_fill_if_empty cfgExample envFull fsNone).2.1.2 (by decide) (by decide)⟩

end LdapRedhat
